import Mathlib

/-!
# Verification of the Piastrix shop SDK (`piastrixlib.py`)

A shallow embedding of the Piastrix payment-API client library and proofs
about its signing, callback-verification, field-merging, guard and
response-interpretation logic.

Modelling conventions:

* Python scalar values that flow through the library are `PyValue`
  (strings, ints, `None`).  Python `dict`s are insertion-ordered
  association lists `PyDict` with unique keys in practice; `dset`
  implements Python assignment semantics (update in place, else append),
  `dpop` implements `dict.pop`.
* Python exceptions are the `PyErr` type: `keyError` (built-in
  `KeyError`), `typeError` (built-in `TypeError`, raised e.g. by
  `':'.join` on non-`str` items), and `clientError` for
  `PiastrixClientException(message, error_code)`.
* `hashlib.sha256(...).hexdigest()` is embedded as an executable
  SHA-256 (FIPS 180-4) over `Nat` words reduced mod 2^32, producing the
  lowercase hex digest string.
* Network I/O (`requests.post`) sits outside the library; client
  operations return the `(endpoint, payload)` pair they would POST, so a
  returned `PyErr` means the POST is never issued.  `_post`'s
  interpretation of an already-delivered 2xx JSON body is `post_interpret`.
-/

/-- A Python scalar value as used by the library: `str`, `int`, or `None`. -/
inductive PyValue where
  | VStr (s : String)
  | VInt (n : Int)
  | VNone
deriving DecidableEq, Repr

open PyValue

/-- A Python `dict` with `String` keys: an insertion-ordered association
list (keys are unique in every dict the library builds). -/
abbrev PyDict := List (String × PyValue)

/-- `d[k]` as a total lookup: the value of the entry with key `k`. -/
def dget : PyDict → String → Option PyValue
  | [], _ => none
  | p :: t, k => if p.1 = k then some p.2 else dget t k

/-- Python assignment `d[k] = v`: overwrite in place if `k` is present,
otherwise append at the end (dict insertion order). -/
def dset : PyDict → String → PyValue → PyDict
  | [], k, v => [(k, v)]
  | p :: t, k, v => if p.1 = k then (k, v) :: t else p :: dset t k v

/-- Remove the entry with key `k`, keeping the order of the rest. -/
def dremove : PyDict → String → PyDict
  | [], _ => []
  | p :: t, k => if p.1 = k then t else p :: dremove t k

/-- Python `d.pop(k)`: the removed value and the remaining dict, or
`none` (a `KeyError` in Python) when `k` is absent. -/
def dpop (d : PyDict) (k : String) : Option (PyValue × PyDict) :=
  match dget d k with
  | some v => some (v, dremove d k)
  | none => none

/-- `d.keys()` in insertion order. -/
def dkeys (d : PyDict) : List String := d.map Prod.fst

/-- Python `d.update(e)`: assign every entry of `e` into `d`, in order. -/
def dupdate (d e : PyDict) : PyDict :=
  e.foldl (fun acc p => dset acc p.1 p.2) d

/-- A Python exception as raised by the library. -/
inductive PyErr where
  | keyError (k : String)
  | typeError
  | clientError (message : String) (error_code : Nat)
deriving DecidableEq, Repr

/-! ## `PiastrixErrorCode` constants (`piastrixlib.py` lines 14-22) -/

def ExtraFieldsError : Nat := 1000
def IpError : Nat := 1001
def SignError : Nat := 1002
def ShopAmountError : Nat := 1003
def ShopCurrencyError : Nat := 1004
def StatusError : Nat := 1005
def LanguageError : Nat := 1006
def AmountTypeError : Nat := 1007

/-! ## Lexicographic string sort (Python `sorted` on `str`)

Python compares strings lexicographically by Unicode code point; `sorted`
returns the unique ≤-sorted rearrangement.  We realise it by insertion
sort over a code-point comparison, which is structurally recursive and so
evaluates inside the kernel. -/

/-- Code-point lexicographic `≤` on character lists. -/
def charListLe : List Char → List Char → Bool
  | [], _ => true
  | _ :: _, [] => false
  | a :: as, b :: bs =>
    if a.toNat < b.toNat then true
    else if b.toNat < a.toNat then false
    else charListLe as bs

/-- Python string `≤` (code-point lexicographic). -/
def strLe (a b : String) : Bool := charListLe a.data b.data

/-- Insert into a `strLe`-sorted list, keeping it sorted. -/
def insertSorted (a : String) : List String → List String
  | [] => [a]
  | b :: bs => if strLe a b then a :: b :: bs else b :: insertSorted a bs

/-- Python `sorted` on a list of strings. -/
def sortStrings : List String → List String
  | [] => []
  | a :: as => insertSorted a (sortStrings as)

/-! ## SHA-256 (FIPS 180-4), executable over `Nat`

32-bit machine words are `Nat`s reduced by `w32` (mod 2^32). -/

def w32 (n : Nat) : Nat := n % 4294967296

/-- Rotate the low 32 bits of `x` rightwards by `n`. -/
def rotr (n x : Nat) : Nat := w32 ((x >>> n) + (x <<< (32 - n)))

/-- Bitwise complement of a 32-bit word. -/
def compl32 (x : Nat) : Nat := 4294967295 - x

def bigSigma0 (x : Nat) : Nat := (rotr 2 x) ^^^ (rotr 13 x) ^^^ (rotr 22 x)
def bigSigma1 (x : Nat) : Nat := (rotr 6 x) ^^^ (rotr 11 x) ^^^ (rotr 25 x)
def smallSigma0 (x : Nat) : Nat := (rotr 7 x) ^^^ (rotr 18 x) ^^^ (x >>> 3)
def smallSigma1 (x : Nat) : Nat := (rotr 17 x) ^^^ (rotr 19 x) ^^^ (x >>> 10)
def chFn (e f g : Nat) : Nat := (e &&& f) ^^^ ((compl32 e) &&& g)
def majFn (a b c : Nat) : Nat := (a &&& b) ^^^ (a &&& c) ^^^ (b &&& c)

/-- The 64 SHA-256 round constants. -/
def K256 : List Nat :=
  [1116352408, 1899447441, 3049323471, 3921009573, 961987163, 1508970993,
   2453635748, 2870763221, 3624381080, 310598401, 607225278, 1426881987,
   1925078388, 2162078206, 2614888103, 3248222580, 3835390401, 4022224774,
   264347078, 604807628, 770255983, 1249150122, 1555081692, 1996064986,
   2554220882, 2821834349, 2952996808, 3210313671, 3336571891, 3584528711,
   113926993, 338241895, 666307205, 773529912, 1294757372, 1396182291,
   1695183700, 1986661051, 2177026350, 2456956037, 2730485921, 2820302411,
   3259730800, 3345764771, 3516065817, 3600352804, 4094571909, 275423344,
   430227734, 506948616, 659060556, 883997877, 958139571, 1322822218,
   1537002063, 1747873779, 1955562222, 2024104815, 2227730452, 2361852424,
   2428436474, 2756734187, 3204031479, 3329325298]

/-- The initial SHA-256 hash state. -/
def H256 : List Nat :=
  [1779033703, 3144134277, 1013904242, 2773480762, 1359893119, 2600822924,
   528734635, 1541459225]

/-- UTF-8 encoding of one character, as byte values. -/
def utf8EncodeChar (c : Char) : List Nat :=
  let n := c.toNat
  if n < 0x80 then [n]
  else if n < 0x800 then
    [0xC0 ||| (n >>> 6), 0x80 ||| (n &&& 0x3F)]
  else if n < 0x10000 then
    [0xE0 ||| (n >>> 12), 0x80 ||| ((n >>> 6) &&& 0x3F), 0x80 ||| (n &&& 0x3F)]
  else
    [0xF0 ||| (n >>> 18), 0x80 ||| ((n >>> 12) &&& 0x3F),
     0x80 ||| ((n >>> 6) &&& 0x3F), 0x80 ||| (n &&& 0x3F)]

/-- `s.encode('utf-8')` as a list of byte values. -/
def strBytes (s : String) : List Nat := (s.data.map utf8EncodeChar).flatten

/-- The message length in bits as 8 big-endian bytes. -/
def lenBytes (n : Nat) : List Nat :=
  [n >>> 56 % 256, n >>> 48 % 256, n >>> 40 % 256, n >>> 32 % 256,
   n >>> 24 % 256, n >>> 16 % 256, n >>> 8 % 256, n % 256]

/-- SHA-256 padding: `0x80`, zeros to 56 mod 64, then the bit length. -/
def padMsg (m : List Nat) : List Nat :=
  let L := m.length
  m ++ [0x80] ++ List.replicate ((64 - (L + 9) % 64) % 64) 0 ++ lenBytes (8 * L)

/-- Big-endian 4-byte groups to 32-bit words. -/
def bytesToWords : List Nat → List Nat
  | a :: b :: c :: d :: rest =>
    (a <<< 24 + b <<< 16 + c <<< 8 + d) :: bytesToWords rest
  | _ => []

/-- Split a word list into 16-word blocks. -/
def wordsToBlocks : List Nat → List (List Nat)
  | w0 :: w1 :: w2 :: w3 :: w4 :: w5 :: w6 :: w7 ::
    w8 :: w9 :: w10 :: w11 :: w12 :: w13 :: w14 :: w15 :: rest =>
    [w0, w1, w2, w3, w4, w5, w6, w7, w8, w9, w10, w11, w12, w13, w14, w15] ::
      wordsToBlocks rest
  | _ => []

/-- Extend the message schedule by `fuel` more words; `rws` holds the
schedule so far, newest first. -/
def extendLoop : Nat → List Nat → List Nat
  | 0, rws => rws
  | Nat.succ fuel, rws =>
    let wt := w32 (smallSigma1 (rws.getD 1 0) + rws.getD 6 0 +
                   smallSigma0 (rws.getD 14 0) + rws.getD 15 0)
    extendLoop fuel (wt :: rws)

/-- The 64-entry message schedule of a 16-word block. -/
def schedule (block : List Nat) : List Nat := (extendLoop 48 block.reverse).reverse

/-- One compression round; the state is `[a,b,c,d,e,f,g,h]` and `kw` the
round constant paired with the schedule word. -/
def compressStep (st : List Nat) (kw : Nat × Nat) : List Nat :=
  let a := st.getD 0 0
  let b := st.getD 1 0
  let c := st.getD 2 0
  let d := st.getD 3 0
  let e := st.getD 4 0
  let f := st.getD 5 0
  let g := st.getD 6 0
  let h := st.getD 7 0
  let t1 := h + bigSigma1 e + chFn e f g + kw.1 + kw.2
  let t2 := bigSigma0 a + majFn a b c
  [w32 (t1 + t2), a, b, c, w32 (d + t1), e, f, g]

/-- Compress one 16-word block into the running hash state. -/
def compressBlock (H : List Nat) (block : List Nat) : List Nat :=
  let final := (K256.zip (schedule block)).foldl compressStep H
  List.zipWith (fun x y => w32 (x + y)) H final

/-- A lowercase hexadecimal digit. -/
def hexDigit (n : Nat) : Char :=
  if n < 10 then Char.ofNat (48 + n) else Char.ofNat (87 + n)

/-- A 32-bit word as 8 lowercase hex characters. -/
def hexWord (n : Nat) : List Char :=
  [hexDigit (n >>> 28 % 16), hexDigit (n >>> 24 % 16), hexDigit (n >>> 20 % 16),
   hexDigit (n >>> 16 % 16), hexDigit (n >>> 12 % 16), hexDigit (n >>> 8 % 16),
   hexDigit (n >>> 4 % 16), hexDigit (n % 16)]

/-- `sha256(s.encode('utf-8')).hexdigest()`: the lowercase hex SHA-256
digest of a string. -/
def sha256Hex (s : String) : String :=
  let Hfinal := (wordsToBlocks (bytesToWords (padMsg (strBytes s)))).foldl compressBlock H256
  String.mk ((Hfinal.map hexWord).flatten)

/-! ## `PiastrixClient._sign` (`piastrixlib.py` lines 42-45)

```python
def _sign(self, data, required_fields):
    sorted_data = [data[key] for key in sorted(required_fields)]
    signed_data = ':'.join(sorted_data) + self.secret_key
    data['sign'] = sha256(signed_data.encode('utf-8')).hexdigest()
```

`data[key]` raises `KeyError` for a missing key; `':'.join` raises
`TypeError` when an item is not a `str` (the code performs NO `str()`
coercion). -/

/-- `[data[key] for key in keys]`: each lookup may raise `KeyError`. -/
def getAll (data : PyDict) : List String → Except PyErr (List PyValue)
  | [] => .ok []
  | k :: ks =>
    match dget data k with
    | some v => (getAll data ks).map (fun vs => v :: vs)
    | none => .error (.keyError k)

/-- `':'.join` item check: every item must be a `str`, else `TypeError`. -/
def strValues : List PyValue → Except PyErr (List String)
  | [] => .ok []
  | VStr s :: vs => (strValues vs).map (fun ss => s :: ss)
  | VInt _ :: _ => .error .typeError
  | VNone :: _ => .error .typeError

/-- The digest `_sign` computes (the value stored under `'sign'`). -/
def signDigest (secret : String) (data : PyDict) (required_fields : List String) :
    Except PyErr String :=
  match getAll data (sortStrings required_fields) with
  | .error e => .error e
  | .ok sorted_data =>
    match strValues sorted_data with
    | .error e => .error e
    | .ok strs => .ok (sha256Hex (String.intercalate ":" strs ++ secret))

/-- `PiastrixClient._sign`: computes the digest and stores it in `data`
under `'sign'`, returning the mutated dict. -/
def sign_ (secret : String) (data : PyDict) (required_fields : List String) :
    Except PyErr PyDict :=
  match signDigest secret data required_fields with
  | .error e => .error e
  | .ok dg => .ok (dset data "sign" (VStr dg))

/-- Python `str(v)` for a `PyValue`. -/
def pyStr : PyValue → String
  | VStr s => s
  | VInt n => toString n
  | VNone => "None"

/-- The digest the SPEC prescribes.  Modelled from the spec:
`hex(SHA256(join(':', [str(fields[k]) for k in sorted(requiredFieldNames)]) + secret))`
— note the `str(...)` coercion of each selected value, which the code
does not perform. -/
def specSignDigest (secret : String) (fields : PyDict) (requiredFieldNames : List String) :
    Option String :=
  match getAll fields (sortStrings requiredFieldNames) with
  | .error _ => none
  | .ok vs => some (sha256Hex (String.intercalate ":" (vs.map pyStr) ++ secret))

/-! ## `PiastrixClient._check_extra_fields_keys` (lines 55-59) -/

/-- Raises `PiastrixClientException(..., ExtraFieldsError)` on the first
key of `extra_fields` that is already a key of `req_dict`. -/
def check_extra_fields_keys : PyDict → PyDict → Except PyErr Unit
  | [], _ => .ok ()
  | (k, _) :: rest, req_dict =>
    if k ∈ dkeys req_dict then
      .error (.clientError "Wrong key in extra_fields. Don\x27t use the same keys as req_dict"
        ExtraFieldsError)
    else check_extra_fields_keys rest req_dict

/-- The extra-fields step shared by `bill`, `invoice`, `transfer`, ...:
check the keys, then `req_dict.update(extra_fields)`. -/
def mergeExtraFields (base extra : PyDict) : Except PyErr PyDict :=
  match check_extra_fields_keys extra base with
  | .error e => .error e
  | .ok () => .ok (dupdate base extra)

/-- `if extra_fields is not None: self._check_extra_fields_keys(...);
req_dict.update(extra_fields)` — the optional extra-fields step. -/
def applyExtra (req_dict : PyDict) : Option PyDict → Except PyErr PyDict
  | some ef => mergeExtraFields req_dict ef
  | none => .ok req_dict

/-! ## `PiastrixClient.check_callback` (lines 61-102) -/

/-- The fixed callback source allow-list (lines 76-85). -/
def allowed_ip_address : List String :=
  ["87.98.145.206", "51.68.53.104", "51.68.53.105", "51.68.53.106",
   "51.68.53.107", "91.121.216.63", "37.48.108.180", "37.48.108.181"]

/-- Line 90: the keys of `request_data` whose value is neither `''` nor
`None`, in insertion order. -/
def callbackRequired (request_data : PyDict) : List String :=
  (dkeys request_data).filter
    (fun key => decide (dget request_data key ≠ some (VStr "") ∧
                        dget request_data key ≠ some VNone))

/-- `check_callback(request_data, remote_ip_address, shop_amount,
shop_currency)`.  Raising is `.error`; the second component is the state
of the caller's `request_data` dict when the call returns or raises
(Python mutates it in place). -/
def check_callback (secret : String) (request_data : PyDict) (remote_ip_address : String)
    (shop_amount shop_currency : PyValue) : Except PyErr Unit × PyDict :=
  match dpop request_data "sign" with
  | none => (.error (.keyError "sign"), request_data)
  | some (sign, d1) =>
    if remote_ip_address ∈ allowed_ip_address then
      match sign_ secret d1 (callbackRequired d1) with
      | .error e => (.error e, d1)
      | .ok d2 =>
        match dget d2 "sign" with
        | none => (.error (.keyError "sign"), d2)
        | some new_sign =>
          if sign = new_sign then
            match dget d2 "shop_amount" with
            | none => (.error (.keyError "shop_amount"), d2)
            | some sa =>
              if shop_amount = sa then
                match dget d2 "shop_currency" with
                | none => (.error (.keyError "shop_currency"), d2)
                | some sc =>
                  if shop_currency = sc then
                    match dget d2 "status" with
                    | none => (.error (.keyError "status"), d2)
                    | some st =>
                      if st = VStr "success" then (.ok (), d2)
                      else (.error (.clientError "Wrong status" StatusError), d2)
                  else (.error (.clientError "Wrong shop_currency" ShopCurrencyError), d2)
              else (.error (.clientError "Wrong shop_amount" ShopAmountError), d2)
          else (.error (.clientError "Wrong sign" SignError), d2)
    else (.error (.clientError "IP address is not in allowed IP addresses" IpError), d1)

/-! ## `PiastrixClient.transfer` (lines 238-275), `withdraw_try` (277-304),
`withdraw` (306-346), `pay` (417-449)

Each operation ends by POSTing its signed `req_dict`; we return the
`(endpoint, payload)` pair it would POST, so an `.error` result means the
transport is never invoked.  `shop_id` is the client's constructor field.
`account_details` is a nested dict the claims never inspect; its value is
passed through as an opaque `PyValue`. -/

/-- `PiastrixClient.transfer`. -/
def transfer (secret : String) (shop_id : PyValue)
    (amount : PyValue) (amount_type : String) (payee_account payee_currency
     shop_currency shop_payment_id : PyValue) (extra_fields : Option PyDict) :
    Except PyErr (String × PyDict) :=
  let required_fields := ["amount", "amount_type", "payee_account",
                          "payee_currency", "shop_currency", "shop_id", "shop_payment_id"]
  let req_dict : PyDict :=
    [("amount", amount), ("amount_type", VStr amount_type),
     ("payee_account", payee_account), ("payee_currency", payee_currency),
     ("shop_currency", shop_currency), ("shop_id", shop_id),
     ("shop_payment_id", shop_payment_id)]
  match applyExtra req_dict extra_fields with
  | .error e => .error e
  | .ok req_dict =>
    if amount_type = "receive_amount" ∨ amount_type = "writeoff_amount" then
      match sign_ secret req_dict required_fields with
      | .error e => .error e
      | .ok signed => .ok ("transfer/create", signed)
    else .error (.clientError "Wrong amount_type" AmountTypeError)

/-- `PiastrixClient.withdraw_try`. -/
def withdraw_try (secret : String) (shop_id : PyValue)
    (amount : PyValue) (amount_type : String) (payway shop_currency : PyValue) :
    Except PyErr (String × PyDict) :=
  let required_fields := ["amount", "amount_type", "payway", "shop_currency", "shop_id"]
  let req_dict : PyDict :=
    [("amount", amount), ("amount_type", VStr amount_type), ("payway", payway),
     ("shop_currency", shop_currency), ("shop_id", shop_id)]
  if amount_type = "ps_amount" ∨ amount_type = "shop_amount" then
    match sign_ secret req_dict required_fields with
    | .error e => .error e
    | .ok signed => .ok ("withdraw/try", signed)
  else .error (.clientError "Wrong amount_type" AmountTypeError)

/-- `PiastrixClient.withdraw`. -/
def withdraw (secret : String) (shop_id : PyValue)
    (account amount : PyValue) (amount_type : String) (payway shop_currency
     shop_payment_id : PyValue) (account_details : Option PyValue)
    (extra_fields : Option PyDict) : Except PyErr (String × PyDict) :=
  let required_fields := ["account", "amount", "amount_type", "payway",
                          "shop_currency", "shop_id", "shop_payment_id"]
  let req_dict : PyDict :=
    [("account", account), ("amount", amount), ("amount_type", VStr amount_type),
     ("payway", payway), ("shop_currency", shop_currency), ("shop_id", shop_id),
     ("shop_payment_id", shop_payment_id)]
  let req_dict :=
    match account_details with
    | some ad => dset req_dict "account_details" ad
    | none => req_dict
  match applyExtra req_dict extra_fields with
  | .error e => .error e
  | .ok req_dict =>
    if amount_type = "ps_amount" ∨ amount_type = "shop_amount" then
      match sign_ secret req_dict required_fields with
      | .error e => .error e
      | .ok signed => .ok ("withdraw/create", signed)
    else .error (.clientError "Wrong amount_type" AmountTypeError)

/-- `PiastrixClient.pay`: validates `lang`, builds and signs the form,
returns it with the redirect URL.  No POST happens in `pay` at all. -/
def pay (secret : String) (shop_id : PyValue)
    (amount currency shop_order_id : PyValue) (extra_fields : Option PyDict)
    (lang : String) : Except PyErr (PyDict × String) :=
  if lang = "ru" ∨ lang = "en" then
    let required_fields := ["amount", "currency", "shop_id", "shop_order_id"]
    let form_data : PyDict :=
      [("amount", amount), ("shop_id", shop_id), ("currency", currency),
       ("shop_order_id", shop_order_id)]
    match applyExtra form_data extra_fields with
    | .error e => .error e
    | .ok form_data =>
      match sign_ secret form_data required_fields with
      | .error e => .error e
      | .ok signed => .ok (signed, "https://pay.piastrix.com/" ++ lang ++ "/pay")
  else .error (.clientError (lang ++ " is not valid language") LanguageError)

/-! ## `PiastrixClient._post` response interpretation (lines 50-53)

```python
result = response.json()
if result['result'] is True:
    return result.get('data')
raise PiastrixClientException(result['message'], result['error_code'])
```

The HTTP layer (`requests.post`, `raise_for_status`) is outside the
library; `post_interpret` is the interpretation of an already-delivered
2xx JSON object body. -/

/-- A JSON value as decoded by `response.json()`. -/
inductive JValue where
  | jnull
  | jbool (b : Bool)
  | jnum (n : Int)
  | jstr (s : String)
  | jarr (elems : List JValue)
  | jobj (fields : List (String × JValue))

/-- Lookup in a JSON object (first entry with the key). -/
def jget (fields : List (String × JValue)) (k : String) : Option JValue :=
  (fields.find? (fun p => p.1 = k)).map Prod.snd

/-- The outcome of `_post`'s response interpretation. -/
inductive PostOutcome where
  | ok (data : JValue)
  | remoteError (message : JValue) (error_code : JValue)
  | keyErr (k : String)

/-- Interpret a parsed 2xx JSON object body exactly as `_post` does:
`result['result'] is True` succeeds with `result.get('data')` (Python
`None`, i.e. `jnull`, when absent), anything else raises
`PiastrixClientException(result['message'], result['error_code'])`. -/
def post_interpret (result : List (String × JValue)) : PostOutcome :=
  match jget result "result" with
  | none => .keyErr "result"
  | some (.jbool true) =>
    .ok (match jget result "data" with
         | some d => d
         | none => .jnull)
  | some _ =>
    match jget result "message" with
    | none => .keyErr "message"
    | some m =>
      match jget result "error_code" with
      | none => .keyErr "error_code"
      | some c => .remoteError m c

/-! ## Dictionary lemmas -/

theorem dget_eq_none_iff (d : PyDict) (k : String) :
    dget d k = none ↔ k ∉ dkeys d := by
  induction d with
  | nil => simp [dget, dkeys]
  | cons p t ih =>
    by_cases h : p.1 = k
    · simp [dget, dkeys, h]
    · simpa [dget, dkeys, h, Ne.symm h] using ih

theorem mem_of_dget_eq_some (d : PyDict) (k : String) (v : PyValue)
    (h : dget d k = some v) : (k, v) ∈ d := by
  induction d with
  | nil => simp [dget] at h
  | cons p t ih =>
    by_cases hp : p.1 = k
    · refine List.mem_cons.mpr (Or.inl ?_)
      have h2 : p.2 = v := by simpa [dget, hp] using h
      calc (k, v) = (p.1, p.2) := by rw [hp, h2]
        _ = p := rfl
    · simp only [dget, hp, if_neg, if_false] at h
      exact List.mem_cons_of_mem _ (ih h)

theorem dget_eq_some_of_mem (d : PyDict) (k : String) (v : PyValue)
    (hnd : (dkeys d).Nodup) (h : (k, v) ∈ d) : dget d k = some v := by
  induction d with
  | nil => simp at h
  | cons p t ih =>
    rcases List.mem_cons.mp h with h1 | h1
    · simp [dget, ← h1]
    · have hk : k ∈ dkeys t := List.mem_map.mpr ⟨(k, v), h1, rfl⟩
      have hp : p.1 ≠ k := fun he => (List.nodup_cons.mp hnd).1 (he ▸ hk)
      simp only [dget, hp, if_neg, if_false]
      exact ih (List.nodup_cons.mp hnd).2 h1

theorem dget_perm (d1 d2 : PyDict) (k : String)
    (hperm : d1.Perm d2) (hnd : (dkeys d1).Nodup) :
    dget d1 k = dget d2 k := by
  have hnd2 : (dkeys d2).Nodup := (hperm.map Prod.fst).nodup_iff.mp hnd
  cases hv : dget d1 k with
  | none =>
    rw [dget_eq_none_iff] at hv
    have : k ∉ dkeys d2 := fun hm => hv ((hperm.map Prod.fst).mem_iff.mpr hm)
    exact ((dget_eq_none_iff d2 k).mpr this).symm
  | some v =>
    exact (dget_eq_some_of_mem d2 k v hnd2 (hperm.mem_iff.mp
      (mem_of_dget_eq_some d1 k v hv))).symm

theorem dget_dset (d : PyDict) (k k' : String) (v : PyValue) :
    dget (dset d k v) k' = if k' = k then some v else dget d k' := by
  induction d with
  | nil =>
    by_cases h : k' = k
    · simp [dset, dget, h]
    · have h2 : ¬ k = k' := fun he => h he.symm
      simp [dset, dget, h, h2]
  | cons p t ih =>
    by_cases hp : p.1 = k
    · subst hp
      by_cases h : k' = p.1
      · simp [dset, dget, h]
      · have h2 : ¬ p.1 = k' := fun he => h he.symm
        simp [dset, dget, h, h2]
    · by_cases hk' : p.1 = k'
      · have hne : ¬ k' = k := fun he => hp (hk'.trans he)
        simp [dset, dget, hp, hk', hne]
      · simp [dset, dget, hp, hk', ih]

theorem dget_dremove_ne (d : PyDict) (k k' : String) (h : k' ≠ k) :
    dget (dremove d k) k' = dget d k' := by
  induction d with
  | nil => simp [dremove]
  | cons p t ih =>
    by_cases hp : p.1 = k
    · have h1 : ¬ p.1 = k' := fun he => h (he.symm.trans hp)
      have h2 : ¬ k = k' := fun he => h he.symm
      simp [dremove, dget, hp, h1, h2]
    · by_cases hk' : p.1 = k'
      · have h2 : ¬ k' = k := fun he => hp (hk'.trans he)
        simp [dremove, dget, hp, hk', h2]
      · simp [dremove, dget, hp, hk', ih]

theorem not_mem_dkeys_dremove (d : PyDict) (k : String)
    (hnd : (dkeys d).Nodup) : k ∉ dkeys (dremove d k) := by
  induction d with
  | nil => simp [dremove, dkeys]
  | cons p t ih =>
    by_cases hp : p.1 = k
    · simpa [dremove, hp] using (hp ▸ (List.nodup_cons.mp hnd).1)
    · simp only [dremove, hp, if_neg, if_false, dkeys, List.map_cons, List.mem_cons]
      rintro (h1 | h1)
      · exact hp h1.symm
      · exact ih (List.nodup_cons.mp hnd).2 h1

/-! ## Sorting and signing lemmas -/

theorem mem_insertSorted (a b : String) (l : List String) :
    a ∈ insertSorted b l ↔ a = b ∨ a ∈ l := by
  induction l with
  | nil => simp [insertSorted]
  | cons c t ih =>
    by_cases h : strLe b c = true
    · simp [insertSorted, h]
    · rw [insertSorted, if_neg h]
      simp only [List.mem_cons, ih]
      tauto

theorem mem_sortStrings (a : String) (l : List String) :
    a ∈ sortStrings l ↔ a ∈ l := by
  induction l with
  | nil => simp [sortStrings]
  | cons b t ih => simp [sortStrings, mem_insertSorted, ih]

theorem getAll_congr (d1 d2 : PyDict) (ks : List String)
    (h : ∀ k ∈ ks, dget d1 k = dget d2 k) : getAll d1 ks = getAll d2 ks := by
  induction ks with
  | nil => rfl
  | cons k t ih =>
    have hk := h k (List.mem_cons_self k t)
    have ht := ih (fun k' hk' => h k' (List.mem_cons_of_mem _ hk'))
    simp only [getAll, hk, ht]

theorem signDigest_congr (secret : String) (required_fields : List String)
    (f1 f2 : PyDict) (h : ∀ k ∈ required_fields, dget f1 k = dget f2 k) :
    signDigest secret f1 required_fields = signDigest secret f2 required_fields := by
  have : getAll f1 (sortStrings required_fields) = getAll f2 (sortStrings required_fields) :=
    getAll_congr f1 f2 _ (fun k hk => h k ((mem_sortStrings k _).mp hk))
  simp only [signDigest, this]

theorem strValues_map_pyStr (vs : List PyValue) (ss : List String)
    (h : strValues vs = .ok ss) : vs.map pyStr = ss := by
  induction vs generalizing ss with
  | nil =>
    simp only [strValues, Except.ok.injEq] at h
    simp [← h]
  | cons v t ih =>
    cases v with
    | VStr s =>
      simp only [strValues] at h
      cases ht : strValues t with
      | error e => rw [ht] at h; simp [Except.map] at h
      | ok st =>
        rw [ht] at h
        simp only [Except.map] at h
        injection h with h
        simp [← h, pyStr, ih st ht]
    | VInt n => simp [strValues] at h
    | VNone => simp [strValues] at h

theorem sign_eq_ok_iff (secret : String) (data : PyDict) (required_fields : List String)
    (d' : PyDict) :
    sign_ secret data required_fields = .ok d' ↔
      ∃ dg, signDigest secret data required_fields = .ok dg ∧
        d' = dset data "sign" (VStr dg) := by
  constructor
  · intro h
    cases hd : signDigest secret data required_fields with
    | error e => simp [sign_, hd] at h
    | ok dg =>
      refine ⟨dg, rfl, ?_⟩
      simp only [sign_, hd] at h
      injection h with h
      exact h.symm
  · rintro ⟨dg, hdg, rfl⟩
    simp [sign_, hdg]

/-! ## Extra-fields lemmas -/

theorem check_extra_fields_keys_ok (extra req : PyDict)
    (h : ∀ k ∈ dkeys extra, k ∉ dkeys req) :
    check_extra_fields_keys extra req = .ok () := by
  induction extra with
  | nil => rfl
  | cons p t ih =>
    have hp : p.1 ∉ dkeys req := h p.1 (List.mem_map.mpr ⟨p, List.mem_cons_self p t, rfl⟩)
    simp only [check_extra_fields_keys, hp, if_neg, if_false]
    exact ih (fun k hk => h k (List.mem_map.mpr
      (by rcases List.mem_map.mp hk with ⟨q, hq, rfl⟩; exact ⟨q, List.mem_cons_of_mem _ hq, rfl⟩)))

theorem check_extra_fields_keys_err (extra req : PyDict)
    (h : ∃ k ∈ dkeys extra, k ∈ dkeys req) :
    check_extra_fields_keys extra req =
      .error (.clientError "Wrong key in extra_fields. Don\x27t use the same keys as req_dict"
        ExtraFieldsError) := by
  induction extra with
  | nil => simp [dkeys] at h
  | cons p t ih =>
    by_cases hp : p.1 ∈ dkeys req
    · simp [check_extra_fields_keys, hp]
    · simp only [check_extra_fields_keys, hp, if_neg, if_false]
      rcases h with ⟨k, hk, hkr⟩
      rcases List.mem_map.mp hk with ⟨q, hq, rfl⟩
      rcases List.mem_cons.mp hq with rfl | hq2
      · exact absurd hkr hp
      · exact ih ⟨q.1, List.mem_map.mpr ⟨q, hq2, rfl⟩, hkr⟩

theorem dset_fresh (d : PyDict) (k : String) (v : PyValue) (h : k ∉ dkeys d) :
    dset d k v = d ++ [(k, v)] := by
  induction d with
  | nil => rfl
  | cons p t ih =>
    have hp : ¬ p.1 = k := fun he => h (List.mem_map.mpr ⟨p, List.mem_cons_self p t, he⟩)
    simp only [dset, hp, if_neg, if_false, List.cons_append, List.cons.injEq, true_and]
    exact ih (fun hk => h (by
      rcases List.mem_map.mp hk with ⟨q, hq, rfl⟩
      exact List.mem_map.mpr ⟨q, List.mem_cons_of_mem _ hq, rfl⟩))

theorem dkeys_cons (p : String × PyValue) (t : PyDict) :
    dkeys (p :: t) = p.1 :: dkeys t := rfl

theorem dkeys_append (d e : PyDict) : dkeys (d ++ e) = dkeys d ++ dkeys e := by
  simp [dkeys]

theorem dupdate_disjoint (d e : PyDict) (hnd : (dkeys e).Nodup)
    (h : ∀ k ∈ dkeys e, k ∉ dkeys d) : dupdate d e = d ++ e := by
  induction e generalizing d with
  | nil => simp [dupdate]
  | cons p t ih =>
    rw [dkeys_cons] at hnd h
    have hnd2 := List.nodup_cons.mp hnd
    have hp : p.1 ∉ dkeys d := h p.1 (List.mem_cons_self _ _)
    have step : dset d p.1 p.2 = d ++ [(p.1, p.2)] := dset_fresh d p.1 p.2 hp
    have hd : dupdate d (p :: t) = dupdate (d ++ [(p.1, p.2)]) t := by
      simp [dupdate, step]
    have hdisj : ∀ k ∈ dkeys t, k ∉ dkeys (d ++ [(p.1, p.2)]) := by
      intro k hk hmem
      rw [dkeys_append] at hmem
      rcases List.mem_append.mp hmem with h1 | h1
      · exact h k (List.mem_cons_of_mem _ hk) h1
      · have hkp : k = p.1 := by simpa [dkeys] using h1
        exact hnd2.1 (hkp ▸ hk)
    rw [hd, ih (d ++ [(p.1, p.2)]) hnd2.2 hdisj]
    simp

theorem signDigest_eq_ok_iff (secret : String) (data : PyDict)
    (required_fields : List String) (dg : String) :
    signDigest secret data required_fields = .ok dg ↔
      ∃ vs ss, getAll data (sortStrings required_fields) = .ok vs ∧
        strValues vs = .ok ss ∧
        dg = sha256Hex (String.intercalate ":" ss ++ secret) := by
  constructor
  · intro h
    cases hga : getAll data (sortStrings required_fields) with
    | error e => simp [signDigest, hga] at h
    | ok vs =>
      cases hsv : strValues vs with
      | error e => simp [signDigest, hga, hsv] at h
      | ok ss =>
        simp only [signDigest, hga, hsv, Except.ok.injEq] at h
        exact ⟨vs, ss, rfl, hsv, h.symm⟩
  · rintro ⟨vs, ss, hga, hsv, rfl⟩
    simp [signDigest, hga, hsv]

/-- **C1.** The spec's signature algorithm is
`hex(SHA256(join(':', [str(fields[k]) for k in sorted(requiredFieldNames)]) + secret))`,
with every selected value coerced by `str(...)`.  The code's `_sign` omits
the `str(...)` coercion: whenever it succeeds (all required values already
`str`) it stores under `'sign'` exactly the spec's digest, but on any
non-string scalar — e.g. the `int` `100`, although the library's own
methods pass `int`/`float` fields into `_sign` — `':'.join` raises
`TypeError` where the spec prescribes `hex(SHA256(str(value) + secret))`. -/
theorem C1_sign_lacks_str_coercion (secret : String) :
    (∀ (data : PyDict) (required_fields : List String) (d' : PyDict),
        sign_ secret data required_fields = .ok d' →
        dget d' "sign" = (specSignDigest secret data required_fields).map VStr) ∧
    sign_ secret [("amount", VInt 100)] ["amount"] = .error .typeError ∧
    specSignDigest secret [("amount", VInt 100)] ["amount"] =
      some (sha256Hex ("100" ++ secret)) := by
  refine ⟨?_, rfl, ?_⟩
  · intro data required_fields d' hok
    rcases (sign_eq_ok_iff secret data required_fields d').mp hok with ⟨dg, hdg, rfl⟩
    rcases (signDigest_eq_ok_iff secret data required_fields dg).mp hdg with
      ⟨vs, ss, hga, hsv, rfl⟩
    simp [specSignDigest, hga, dget_dset, strValues_map_pyStr vs ss hsv]
  · have hga : getAll [("amount", VInt 100)] (sortStrings ["amount"]) = .ok [VInt 100] := rfl
    simp only [specSignDigest, hga]
    have h100 : String.intercalate ":" (List.map pyStr [VInt 100]) = "100" := by decide
    rw [h100]

/-- **C3.** The signature is purely a function of the required field
values and the secret: mappings agreeing on every required field sign
identically, signing is deterministic, and reordering the envelope's
entries (any permutation of a duplicate-free dict) cannot change the
digest, because required field names are sorted before joining. -/
theorem C3_sign_depends_only_on_required_values (secret : String)
    (required_fields : List String) (f1 f2 : PyDict) :
    ((∀ k ∈ required_fields, dget f1 k = dget f2 k) →
      signDigest secret f1 required_fields = signDigest secret f2 required_fields) ∧
    sign_ secret f1 required_fields = sign_ secret f1 required_fields ∧
    (f1.Perm f2 → (dkeys f1).Nodup →
      signDigest secret f1 required_fields = signDigest secret f2 required_fields) :=
  ⟨fun h => signDigest_congr secret required_fields f1 f2 h, rfl,
   fun hp hnd => signDigest_congr secret required_fields f1 f2
     (fun k _ => dget_perm f1 f2 k hp hnd)⟩

/-- **C5.** Merging extra fields into a request fails with the
`ExtraFieldsError` client error precisely when some extra key already
occurs among the base keys; otherwise the result is the union (base
entries first, then the extra entries).  Includes the spec's concrete
examples. -/
theorem C5_merge_extra_fields (base extra : PyDict) :
    ((∃ k ∈ dkeys extra, k ∈ dkeys base) →
      mergeExtraFields base extra =
        .error (.clientError "Wrong key in extra_fields. Don\x27t use the same keys as req_dict"
          ExtraFieldsError)) ∧
    ((dkeys extra).Nodup → (∀ k ∈ dkeys extra, k ∉ dkeys base) →
      mergeExtraFields base extra = .ok (base ++ extra)) ∧
    mergeExtraFields [("a", VInt 1)] [("a", VInt 2)] =
      .error (.clientError "Wrong key in extra_fields. Don\x27t use the same keys as req_dict"
        ExtraFieldsError) ∧
    mergeExtraFields [("a", VInt 1)] [("b", VInt 2)] =
      .ok [("a", VInt 1), ("b", VInt 2)] := by
  refine ⟨?_, ?_, by rfl, by rfl⟩
  · intro h
    simp [mergeExtraFields, check_extra_fields_keys_err extra base h]
  · intro hnd h
    simp [mergeExtraFields, check_extra_fields_keys_ok extra base h,
      dupdate_disjoint base extra hnd h]

/-- **C7.** `_post`'s interpretation of a delivered 2xx JSON object: a
boolean-`true` `result` field returns the `data` field (Python `None`
when absent); anything else raises
`PiastrixClientException(message, error_code)` from the response's
`message` and `error_code` fields.  Includes the spec's two examples. -/
theorem C7_post_interpret_cases (result : List (String × JValue)) :
    (∀ d, jget result "result" = some (.jbool true) → jget result "data" = some d →
      post_interpret result = .ok d) ∧
    (jget result "result" = some (.jbool true) → jget result "data" = none →
      post_interpret result = .ok .jnull) ∧
    (∀ v m c, jget result "result" = some v → v ≠ .jbool true →
      jget result "message" = some m → jget result "error_code" = some c →
      post_interpret result = .remoteError m c) ∧
    post_interpret [("result", .jbool true), ("data", .jobj [("id", .jstr "x")])] =
      .ok (.jobj [("id", .jstr "x")]) ∧
    post_interpret [("result", .jbool false), ("message", .jstr "bad"),
                    ("error_code", .jnum 5)] =
      .remoteError (.jstr "bad") (.jnum 5) := by
  refine ⟨?_, ?_, ?_, rfl, rfl⟩
  · intro d h1 h2
    simp [post_interpret, h1, h2]
  · intro h1 h2
    simp [post_interpret, h1, h2]
  · intro v m c h1 hne h2 h3
    cases v with
    | jbool b =>
      cases b with
      | true => exact absurd rfl hne
      | false => simp [post_interpret, h1, h2, h3]
    | jnull => simp [post_interpret, h1, h2, h3]
    | jnum n => simp [post_interpret, h1, h2, h3]
    | jstr s => simp [post_interpret, h1, h2, h3]
    | jarr l => simp [post_interpret, h1, h2, h3]
    | jobj l => simp [post_interpret, h1, h2, h3]

/-- **C4** (amended): with no `'sign'` key, `check_callback` fails at
once with the raw built-in `KeyError('sign')` from `dict.pop` — not a
structured `PiastrixClientException` — whatever the other arguments, and
the mapping is left unchanged. -/
theorem C4_missing_sign_raises_keyerror (secret : String) (request_data : PyDict)
    (remote_ip_address : String) (shop_amount shop_currency : PyValue)
    (h : "sign" ∉ dkeys request_data) :
    check_callback secret request_data remote_ip_address shop_amount shop_currency =
      (.error (.keyError "sign"), request_data) := by
  have hd : dget request_data "sign" = none := (dget_eq_none_iff _ _).mpr h
  simp [check_callback, dpop, hd]

/-- **C4** counterexample to the claim as stated: at a concrete
notification with no `'sign'` key the failure is
`PyErr.keyError "sign"` — a distinct constructor from
`PyErr.clientError`, so not a typed/structured client failure. -/
theorem C4_counterexample :
    (check_callback "s" [("status", VStr "success")] "87.98.145.206"
        (VInt 0) (VInt 0)).1 = .error (.keyError "sign") := rfl

/-- **C4** witness: the amended claim at a concrete input. -/
theorem C4_missing_sign_witness :
    check_callback "s" [("status", VStr "success")] "87.98.145.206" (VInt 0) (VInt 0) =
      (.error (.keyError "sign"), [("status", VStr "success")]) :=
  C4_missing_sign_raises_keyerror "s" [("status", VStr "success")] "87.98.145.206"
    (VInt 0) (VInt 0) (by decide)

/-- **C2.** For a notification with a `'sign'` entry (popped value `sv`,
remainder `d1`) whose recomputation step succeeds (`d2` carries the
recomputed digest under `'sign'`): the call succeeds exactly in the
passing configuration, and flipping exactly one of source address,
supplied signature, expected amount, expected currency, or status away
from it yields precisely the matching failure — `IpError`, `SignError`,
`ShopAmountError`, `ShopCurrencyError`, `StatusError` — with the source
check first and the signature check before the amount, currency and
status comparisons. -/
theorem C2_check_callback_cases (secret : String) (request_data : PyDict)
    (remote_ip_address : String) (shop_amount shop_currency sv : PyValue)
    (d1 d2 : PyDict)
    (hpop : dpop request_data "sign" = some (sv, d1))
    (hsig : sign_ secret d1 (callbackRequired d1) = .ok d2) :
    (remote_ip_address ∈ allowed_ip_address → dget d2 "sign" = some sv →
      dget d2 "shop_amount" = some shop_amount →
      dget d2 "shop_currency" = some shop_currency →
      dget d2 "status" = some (VStr "success") →
      check_callback secret request_data remote_ip_address shop_amount shop_currency =
        (.ok (), d2)) ∧
    (remote_ip_address ∉ allowed_ip_address →
      check_callback secret request_data remote_ip_address shop_amount shop_currency =
        (.error (.clientError "IP address is not in allowed IP addresses" IpError), d1)) ∧
    (remote_ip_address ∈ allowed_ip_address → ∀ ns, dget d2 "sign" = some ns → sv ≠ ns →
      check_callback secret request_data remote_ip_address shop_amount shop_currency =
        (.error (.clientError "Wrong sign" SignError), d2)) ∧
    (remote_ip_address ∈ allowed_ip_address → dget d2 "sign" = some sv →
      ∀ sa, dget d2 "shop_amount" = some sa → shop_amount ≠ sa →
      check_callback secret request_data remote_ip_address shop_amount shop_currency =
        (.error (.clientError "Wrong shop_amount" ShopAmountError), d2)) ∧
    (remote_ip_address ∈ allowed_ip_address → dget d2 "sign" = some sv →
      dget d2 "shop_amount" = some shop_amount →
      ∀ sc, dget d2 "shop_currency" = some sc → shop_currency ≠ sc →
      check_callback secret request_data remote_ip_address shop_amount shop_currency =
        (.error (.clientError "Wrong shop_currency" ShopCurrencyError), d2)) ∧
    (remote_ip_address ∈ allowed_ip_address → dget d2 "sign" = some sv →
      dget d2 "shop_amount" = some shop_amount →
      dget d2 "shop_currency" = some shop_currency →
      ∀ st, dget d2 "status" = some st → st ≠ VStr "success" →
      check_callback secret request_data remote_ip_address shop_amount shop_currency =
        (.error (.clientError "Wrong status" StatusError), d2)) := by
  refine ⟨?_, ?_, ?_, ?_, ?_, ?_⟩
  · intro hip h1 h2 h3 h4
    simp [check_callback, hpop, hip, hsig, h1, h2, h3, h4]
  · intro hip
    simp [check_callback, hpop, hip, hsig]
  · intro hip ns h1 hne
    simp [check_callback, hpop, hip, hsig, h1, hne]
  · intro hip h1 sa h2 hne
    simp [check_callback, hpop, hip, hsig, h1, h2, hne]
  · intro hip h1 h2 sc h3 hne
    simp [check_callback, hpop, hip, hsig, h1, h2, h3, hne]
  · intro hip h1 h2 h3 st h4 hne
    simp [check_callback, hpop, hip, hsig, h1, h2, h3, h4, hne]

set_option maxRecDepth 100000 in
/-- **C2** witness: a concrete passing configuration (the digest is the
SHA-256 of `"5:840:success" + "sk"`). -/
theorem C2_check_callback_witness :
    check_callback "sk"
      [("shop_amount", VStr "5"), ("shop_currency", VStr "840"),
       ("status", VStr "success"),
       ("sign", VStr "adfe60dd0b3c7530521b2d57632e1306f121c50a68675f28478397f8830e46b7")]
      "87.98.145.206" (VStr "5") (VStr "840") =
      (.ok (),
       [("shop_amount", VStr "5"), ("shop_currency", VStr "840"),
        ("status", VStr "success"),
        ("sign", VStr "adfe60dd0b3c7530521b2d57632e1306f121c50a68675f28478397f8830e46b7")]) :=
  (C2_check_callback_cases "sk"
    [("shop_amount", VStr "5"), ("shop_currency", VStr "840"),
     ("status", VStr "success"),
     ("sign", VStr "adfe60dd0b3c7530521b2d57632e1306f121c50a68675f28478397f8830e46b7")]
    "87.98.145.206" (VStr "5") (VStr "840")
    (VStr "adfe60dd0b3c7530521b2d57632e1306f121c50a68675f28478397f8830e46b7")
    [("shop_amount", VStr "5"), ("shop_currency", VStr "840"), ("status", VStr "success")]
    [("shop_amount", VStr "5"), ("shop_currency", VStr "840"),
     ("status", VStr "success"),
     ("sign", VStr "adfe60dd0b3c7530521b2d57632e1306f121c50a68675f28478397f8830e46b7")]
    rfl rfl).1 (by decide) rfl rfl rfl rfl

/-! ## State of the notification dict across `check_callback` -/

theorem dpop_eq_some_parts (d : PyDict) (k : String) (v : PyValue) (d' : PyDict)
    (h : dpop d k = some (v, d')) : dget d k = some v ∧ d' = dremove d k := by
  unfold dpop at h
  cases hv : dget d k with
  | none => rw [hv] at h; exact absurd h (by simp)
  | some v2 =>
    rw [hv] at h
    simp only [Option.some.injEq, Prod.mk.injEq] at h
    obtain ⟨h1, h2⟩ := h
    subst h1
    exact ⟨rfl, h2.symm⟩

theorem check_callback_snd_of_sign_ok (secret : String) (request_data : PyDict)
    (remote_ip_address : String) (shop_amount shop_currency sv : PyValue) (d1 d2 : PyDict)
    (hpop : dpop request_data "sign" = some (sv, d1))
    (hip : remote_ip_address ∈ allowed_ip_address)
    (hsig : sign_ secret d1 (callbackRequired d1) = .ok d2) :
    (check_callback secret request_data remote_ip_address shop_amount shop_currency).2 =
      d2 := by
  simp only [check_callback, hpop, hsig, if_pos hip]
  cases dget d2 "sign" with
  | none => rfl
  | some ns =>
    by_cases h1 : sv = ns
    · simp only [if_pos h1]
      cases dget d2 "shop_amount" with
      | none => rfl
      | some sa =>
        by_cases h2 : shop_amount = sa
        · simp only [if_pos h2]
          cases dget d2 "shop_currency" with
          | none => rfl
          | some sc =>
            by_cases h3 : shop_currency = sc
            · simp only [if_pos h3]
              cases dget d2 "status" with
              | none => rfl
              | some st =>
                by_cases h4 : st = VStr "success"
                · simp only [if_pos h4]
                · simp only [if_neg h4]
            · simp only [if_neg h3]
        · simp only [if_neg h2]
    · simp only [if_neg h1]

/-- **C10.** `check_callback` mutates the caller's notification dict:
`'sign'` is removed before the source-address check (so even the
untrusted-source failure leaves the mapping without its original
`'sign'` entry), and on every path that reaches the recomputation the
returned state carries the recomputed digest under `'sign'` with all
other entries unchanged. -/
theorem C10_check_callback_mutates (secret : String) (request_data : PyDict)
    (remote_ip_address : String) (shop_amount shop_currency sv : PyValue) (d1 : PyDict)
    (hnd : (dkeys request_data).Nodup)
    (hpop : dpop request_data "sign" = some (sv, d1)) :
    ("sign" ∉ dkeys d1 ∧ ∀ k, k ≠ "sign" → dget d1 k = dget request_data k) ∧
    (remote_ip_address ∉ allowed_ip_address →
      (check_callback secret request_data remote_ip_address shop_amount shop_currency).2 =
        d1) ∧
    (∀ dg, remote_ip_address ∈ allowed_ip_address →
      signDigest secret d1 (callbackRequired d1) = .ok dg →
      (check_callback secret request_data remote_ip_address shop_amount shop_currency).2 =
        dset d1 "sign" (VStr dg) ∧
      dget (check_callback secret request_data remote_ip_address shop_amount
        shop_currency).2 "sign" = some (VStr dg) ∧
      ∀ k, k ≠ "sign" →
        dget (check_callback secret request_data remote_ip_address shop_amount
          shop_currency).2 k = dget request_data k) := by
  obtain ⟨hget, hrem⟩ := dpop_eq_some_parts request_data "sign" sv d1 hpop
  subst hrem
  refine ⟨⟨not_mem_dkeys_dremove request_data "sign" hnd,
           fun k hk => dget_dremove_ne request_data "sign" k hk⟩, ?_, ?_⟩
  · intro hip
    simp [check_callback, hpop, hip]
  · intro dg hip hdg
    have hsig : sign_ secret (dremove request_data "sign")
        (callbackRequired (dremove request_data "sign")) =
        .ok (dset (dremove request_data "sign") "sign" (VStr dg)) := by
      simp [sign_, hdg]
    have hsnd := check_callback_snd_of_sign_ok secret request_data remote_ip_address
      shop_amount shop_currency sv _ _ hpop hip hsig
    refine ⟨hsnd, ?_, ?_⟩
    · rw [hsnd, dget_dset]
      simp
    · intro k hk
      rw [hsnd, dget_dset, if_neg hk, dget_dremove_ne request_data "sign" k hk]

set_option maxRecDepth 100000 in
/-- **C10** witness: on the wrong-signature path (supplied sign
`"bad"`), the returned state already holds the recomputed digest. -/
theorem C10_check_callback_mutates_witness :
    (check_callback "sk"
      [("shop_amount", VStr "5"), ("shop_currency", VStr "840"),
       ("status", VStr "success"), ("sign", VStr "bad")]
      "87.98.145.206" (VStr "5") (VStr "840")).2 =
      dset [("shop_amount", VStr "5"), ("shop_currency", VStr "840"),
            ("status", VStr "success")] "sign"
        (VStr "adfe60dd0b3c7530521b2d57632e1306f121c50a68675f28478397f8830e46b7") :=
  ((C10_check_callback_mutates "sk"
      [("shop_amount", VStr "5"), ("shop_currency", VStr "840"),
       ("status", VStr "success"), ("sign", VStr "bad")]
      "87.98.145.206" (VStr "5") (VStr "840") (VStr "bad")
      [("shop_amount", VStr "5"), ("shop_currency", VStr "840"),
       ("status", VStr "success")]
      (by decide) rfl).2.2
    "adfe60dd0b3c7530521b2d57632e1306f121c50a68675f28478397f8830e46b7"
    (by decide) rfl).1

/-- **C6** counterexample to the claim as stated: with a bogus
`amount_type` AND an extra field colliding with `req_dict`, `transfer`
fails with the `ExtraFieldsError` client error (code 1000), not
`AmountTypeError` (code 1007) — the extra-fields check runs first. -/
theorem C6_counterexample :
    transfer "sk" (VInt 1) (VInt 5) "bogus" (VInt 2) (VInt 3) (VInt 4) (VStr "p1")
        (some [("amount", VInt 9)]) =
      .error (.clientError "Wrong key in extra_fields. Don\x27t use the same keys as req_dict"
        ExtraFieldsError) ∧
    ExtraFieldsError ≠ AmountTypeError :=
  ⟨rfl, by decide⟩

/-- **C6** (amended).  An `amount_type` outside the allowed pair makes
`transfer` (resp. `withdraw_try`, `withdraw`) fail with the
`AmountTypeError` client error before any POST request is produced —
for `transfer` and `withdraw` provided the extra-fields key check passes
(no extra fields, or extra keys disjoint from the request's);
a colliding extra key fails first with `ExtraFieldsError`.
`withdraw_try` takes no extra fields, so its guard is unconditional. -/
theorem C6_amount_type_guard (secret : String)
    (shop_id amount payee_account payee_currency shop_currency shop_payment_id
     account payway : PyValue) (amount_type : String)
    (account_details : Option PyValue) (extra_fields : Option PyDict) :
    (amount_type ≠ "receive_amount" → amount_type ≠ "writeoff_amount" →
      (extra_fields = none ∨ ∃ ef, extra_fields = some ef ∧
        ∀ k ∈ dkeys ef,
          k ∉ ["amount", "amount_type", "payee_account", "payee_currency",
               "shop_currency", "shop_id", "shop_payment_id"]) →
      transfer secret shop_id amount amount_type payee_account payee_currency
        shop_currency shop_payment_id extra_fields =
        .error (.clientError "Wrong amount_type" AmountTypeError)) ∧
    (amount_type ≠ "ps_amount" → amount_type ≠ "shop_amount" →
      withdraw_try secret shop_id amount amount_type payway shop_currency =
        .error (.clientError "Wrong amount_type" AmountTypeError)) ∧
    (amount_type ≠ "ps_amount" → amount_type ≠ "shop_amount" →
      (extra_fields = none ∨ ∃ ef, extra_fields = some ef ∧
        ∀ k ∈ dkeys ef,
          k ∉ ["account", "amount", "amount_type", "payway", "shop_currency",
               "shop_id", "shop_payment_id", "account_details"]) →
      withdraw secret shop_id account amount amount_type payway shop_currency
        shop_payment_id account_details extra_fields =
        .error (.clientError "Wrong amount_type" AmountTypeError)) := by
  refine ⟨?_, ?_, ?_⟩
  · intro h1 h2 h3
    have hguard : ¬ (amount_type = "receive_amount" ∨ amount_type = "writeoff_amount") := by
      rintro (h | h)
      · exact h1 h
      · exact h2 h
    rcases h3 with rfl | ⟨ef, rfl, hdisj⟩
    · simp [transfer, applyExtra, hguard]
    · have hok : check_extra_fields_keys ef
          [("amount", amount), ("amount_type", VStr amount_type),
           ("payee_account", payee_account), ("payee_currency", payee_currency),
           ("shop_currency", shop_currency), ("shop_id", shop_id),
           ("shop_payment_id", shop_payment_id)] = .ok () := by
        apply check_extra_fields_keys_ok
        intro k hk
        have h5 := hdisj k hk
        simp [dkeys] at h5 ⊢
        tauto
      simp [transfer, applyExtra, mergeExtraFields, hok, hguard]
  · intro h1 h2
    have hguard : ¬ (amount_type = "ps_amount" ∨ amount_type = "shop_amount") := by
      rintro (h | h)
      · exact h1 h
      · exact h2 h
    simp [withdraw_try, hguard]
  · intro h1 h2 h3
    have hguard : ¬ (amount_type = "ps_amount" ∨ amount_type = "shop_amount") := by
      rintro (h | h)
      · exact h1 h
      · exact h2 h
    cases account_details with
    | none =>
      rcases h3 with rfl | ⟨ef, rfl, hdisj⟩
      · simp [withdraw, applyExtra, hguard]
      · have hok : check_extra_fields_keys ef
            [("account", account), ("amount", amount),
             ("amount_type", VStr amount_type), ("payway", payway),
             ("shop_currency", shop_currency), ("shop_id", shop_id),
             ("shop_payment_id", shop_payment_id)] = .ok () := by
          apply check_extra_fields_keys_ok
          intro k hk
          have h5 := hdisj k hk
          simp [dkeys] at h5 ⊢
          tauto
        simp [withdraw, applyExtra, mergeExtraFields, hok, hguard]
    | some ad =>
      have hfresh : dset [("account", account), ("amount", amount),
          ("amount_type", VStr amount_type), ("payway", payway),
          ("shop_currency", shop_currency), ("shop_id", shop_id),
          ("shop_payment_id", shop_payment_id)] "account_details" ad =
          [("account", account), ("amount", amount), ("amount_type", VStr amount_type),
           ("payway", payway), ("shop_currency", shop_currency), ("shop_id", shop_id),
           ("shop_payment_id", shop_payment_id), ("account_details", ad)] := by
        rw [dset_fresh]
        · rfl
        · simp [dkeys]
      rcases h3 with rfl | ⟨ef, rfl, hdisj⟩
      · simp [withdraw, hfresh, applyExtra, hguard]
      · have hok : check_extra_fields_keys ef
            [("account", account), ("amount", amount),
             ("amount_type", VStr amount_type), ("payway", payway),
             ("shop_currency", shop_currency), ("shop_id", shop_id),
             ("shop_payment_id", shop_payment_id), ("account_details", ad)] = .ok () := by
          apply check_extra_fields_keys_ok
          intro k hk
          have h5 := hdisj k hk
          simp [dkeys] at h5 ⊢
          tauto
        simp [withdraw, hfresh, applyExtra, mergeExtraFields, hok, hguard]

theorem pay_ok_url (secret : String) (shop_id amount currency shop_order_id : PyValue)
    (extra_fields : Option PyDict) (lang : String) (form : PyDict) (url : String)
    (h : pay secret shop_id amount currency shop_order_id extra_fields lang =
      .ok (form, url)) :
    url = "https://pay.piastrix.com/" ++ lang ++ "/pay" := by
  by_cases hlang : lang = "ru" ∨ lang = "en"
  · simp only [pay, if_pos hlang] at h
    cases hE : applyExtra [("amount", amount), ("shop_id", shop_id),
        ("currency", currency), ("shop_order_id", shop_order_id)] extra_fields with
    | error e =>
      simp only [hE] at h
      exact absurd h (by simp)
    | ok fd =>
      simp only [hE] at h
      cases hs : sign_ secret fd ["amount", "currency", "shop_id", "shop_order_id"] with
      | error e =>
        simp only [hs] at h
        exact absurd h (by simp)
      | ok signed =>
        simp only [hs, Except.ok.injEq, Prod.mk.injEq] at h
        exact h.2.symm
  · simp only [pay, if_neg hlang] at h
    exact absurd h (by simp)

set_option maxRecDepth 100000 in
/-- **C8.** `pay` validates the language first: outside `{ru, en}` it
fails with the `LanguageError` client error; it never produces a POST
(its result is the form and URL).  Any successful result's URL is
`https://pay.piastrix.com/<lang>/pay` — concretely `/en/pay` for
`lang = "en"`, with the form signed over
`{amount, currency, shop_id, shop_order_id}`.  But the claim's
"returns the signed form mapping" fails on non-string field values:
with `amount` an `int` (the annotated parameter types are
`float`/`int`), `_sign`'s un-coerced `':'.join` raises `TypeError`
instead — the same missing-`str()` slip as in `_sign`. -/
theorem C8_pay_language_and_url (secret : String)
    (shop_id amount currency shop_order_id : PyValue) (extra_fields : Option PyDict) :
    (∀ lang, lang ≠ "ru" → lang ≠ "en" →
      pay secret shop_id amount currency shop_order_id extra_fields lang =
        .error (.clientError (lang ++ " is not valid language") LanguageError)) ∧
    (∀ lang form url,
      pay secret shop_id amount currency shop_order_id extra_fields lang =
        .ok (form, url) →
      url = "https://pay.piastrix.com/" ++ lang ++ "/pay") ∧
    pay "sk" (VStr "7") (VStr "1.5") (VStr "840") (VStr "o1") none "en" =
      .ok ([("amount", VStr "1.5"), ("shop_id", VStr "7"), ("currency", VStr "840"),
            ("shop_order_id", VStr "o1"),
            ("sign",
             VStr "67a8a11b9c283b203657235da49b69addfa67b1cd4936820bb8e7894a235aab1")],
          "https://pay.piastrix.com/en/pay") ∧
    pay "sk" (VStr "7") (VInt 1) (VStr "840") (VStr "o1") none "en" =
      .error .typeError := by
  refine ⟨?_, ?_, rfl, rfl⟩
  · intro lang hru hen
    have hlang : ¬ (lang = "ru" ∨ lang = "en") := by
      rintro (h | h)
      · exact hru h
      · exact hen h
    simp [pay, hlang]
  · intro lang form url h
    exact pay_ok_url secret shop_id amount currency shop_order_id extra_fields
      lang form url h

set_option maxRecDepth 100000 in
/-- **C9.** The `':'` separator disambiguates adjacent values: for the
spec's pair `{"a":"1","b":"23"}` versus `{"a":"12","b":"3"}` (required
fields `a`, `b`) the signing inputs `"1:23"+secret` and `"12:3"+secret`
differ for every secret, and the resulting digests differ (computed at
the secrets `""` and `"secret"`). -/
theorem C9_separator_disambiguates :
    signDigest "" [("a", VStr "1"), ("b", VStr "23")] ["a", "b"] ≠
      signDigest "" [("a", VStr "12"), ("b", VStr "3")] ["a", "b"] ∧
    signDigest "secret" [("a", VStr "1"), ("b", VStr "23")] ["a", "b"] ≠
      signDigest "secret" [("a", VStr "12"), ("b", VStr "3")] ["a", "b"] ∧
    ∀ secret : String,
      String.intercalate ":" ["1", "23"] ++ secret ≠
        String.intercalate ":" ["12", "3"] ++ secret := by
  refine ⟨?_, ?_, ?_⟩
  · intro h
    rw [show signDigest "" [("a", VStr "1"), ("b", VStr "23")] ["a", "b"] =
          .ok "8d93bab675f4c1f0bc7346230d0d3df4bb6ea7326876068a27c651b8038e70d8" from rfl,
        show signDigest "" [("a", VStr "12"), ("b", VStr "3")] ["a", "b"] =
          .ok "351935bbcd2812eceda97494d51064abac73d936a9bc73e762ff9cb27164a670" from rfl]
      at h
    simp only [Except.ok.injEq] at h
    exact absurd h (by decide)
  · intro h
    rw [show signDigest "secret" [("a", VStr "1"), ("b", VStr "23")] ["a", "b"] =
          .ok "257e8025ba1e3c6dce35416d6bf8e494cc6cfae7425c6a1e460e1c423cc71888" from rfl,
        show signDigest "secret" [("a", VStr "12"), ("b", VStr "3")] ["a", "b"] =
          .ok "62bf7cb09d831cb9a3982bba9b8ab7ebadc6bf80cc529b163c58d885924dae23" from rfl]
      at h
    simp only [Except.ok.injEq] at h
    exact absurd h (by decide)
  · intro secret h
    obtain ⟨l⟩ := secret
    have h2 : ['1', ':', '2', '3'] ++ l = ['1', '2', ':', '3'] ++ l :=
      congrArg String.data h
    simp only [List.cons_append, List.nil_append] at h2
    injection h2 with h21 h22
    injection h22 with h23 h24
    exact absurd h23 (by decide)
